import Mathlib

/-
Verification of the Record Normalizer & Shift Classifier of the
production-tracking backend (src/main.py).

Modelling choices:
* A clock time is modelled at second precision, as the number of seconds
  since midnight (the data model declares `time` as hour/minute/second);
  `Time := Fin 86400`.
* Calendar dates are triples year/month/day.
* Python exceptions (FastAPI `HTTPException` and the pydantic field
  validation of `ProductionInput`) are modelled with `Except ApiError`.
* The current wall-clock time (`datetime.now()`) is passed explicitly as a
  `Clock` value.
-/

namespace PTrack

/-- A clock time, in seconds since midnight (second precision). -/
abbrev Time := Fin 86400

/-- A calendar date (year, month, day). -/
structure Date where
  year : Nat
  month : Nat
  day : Nat
deriving DecidableEq, Repr

/-- The error kinds surfaced by the endpoints of src/main.py. -/
inductive ApiError where
  /-- "Time outside defined shifts (A: 07:00-15:30, B: 15:30-24:00)" -/
  | invalidTimeWindow
  /-- "shift must be 'A' or 'B'" -/
  | invalidShift
  /-- "Invalid date format, expected YYYY-MM-DD" -/
  | invalidDateFormat
  /-- pydantic rejection of a negative `count` (Field ge=0) -/
  | invalidCount
  /-- pydantic rejection of a negative `defects` (Field ge=0) -/
  | invalidDefects
  /-- "time is required if shift not provided" -/
  | timeRequired
deriving DecidableEq, Repr

/-- `FIRST_SHIFT_START = dtime(7, 0)` : 07:00:00 = 25200 s. -/
def FIRST_SHIFT_START : Time := ⟨25200, by norm_num⟩

/-- `FIRST_SHIFT_END = dtime(15, 30)` : 15:30:00 = 55800 s (exclusive for A). -/
def FIRST_SHIFT_END : Time := ⟨55800, by norm_num⟩

/-- `SECOND_SHIFT_START = dtime(15, 30)` : 15:30:00 = 55800 s. -/
def SECOND_SHIFT_START : Time := ⟨55800, by norm_num⟩

/-- `SECOND_SHIFT_END = dtime(23, 59, 59)` : 23:59:59 = 86399 s. -/
def SECOND_SHIFT_END : Time := ⟨86399, by norm_num⟩

/-- Embedding of `compute_shift` (src/main.py): returns "A" for
`07:00:00 <= t < 15:30:00`, "B" for `15:30:00 <= t <= 23:59:59`, and raises
`HTTPException` (invalidTimeWindow) otherwise. -/
def compute_shift (entry_time : Time) : Except ApiError String :=
  if FIRST_SHIFT_START ≤ entry_time ∧ entry_time < FIRST_SHIFT_END then
    Except.ok "A"
  else if SECOND_SHIFT_START ≤ entry_time ∧ entry_time ≤ SECOND_SHIFT_END then
    Except.ok "B"
  else
    Except.error ApiError.invalidTimeWindow

/-- Embedding of the pydantic model `ProductionInput` (src/main.py): all
fields optional except `count`; `count` and `defects` carry a ge=0
constraint checked by `validateInput` below. -/
structure ProductionInput where
  date : Option Date
  time : Option Time
  shift : Option String
  line : Option String
  product : Option String
  operator : Option String
  count : Int
  defects : Option Int
  notes : Option String
deriving DecidableEq, Repr

/-- Embedding of the canonical stored record `ProductionRecord`
(src/main.py): `date` and `shift` required; the constructed document always
carries an integer `defects` (`record.defects or 0`). -/
structure ProductionRecord where
  date : Date
  time : Option Time
  shift : String
  line : Option String
  product : Option String
  operator : Option String
  count : Int
  defects : Int
  notes : Option String
deriving DecidableEq, Repr

/-- Pydantic validation of `ProductionInput`: `count: int = Field(..., ge=0)`
and `defects: Optional[int] = Field(default=0, ge=0)`. Runs before the body
of `create_production` is entered. -/
def validateInput (r : ProductionInput) : Except ApiError ProductionInput :=
  if r.count < 0 then
    Except.error ApiError.invalidCount
  else if (match r.defects with | some d => decide (d < 0) | none => false) then
    Except.error ApiError.invalidDefects
  else
    Except.ok r

/-- The current wall-clock reading (`datetime.now()`), at second precision. -/
structure Clock where
  nowDate : Date
  nowTime : Time
deriving DecidableEq, Repr

/-- Python `record.defects or 0`: `None` and `0` are falsy, any other int is
returned unchanged. -/
def defectsOrZero : Option Int → Int
  | none => 0
  | some d => if d = 0 then 0 else d

/-- Embedding of the body of `create_production` (src/main.py), after
pydantic validation. `datetime.time` and `datetime.date` values are always
truthy in Python, so `record.date or now.date()` is `record.date.getD` of the
current date, and `rec_time` is always non-None. When an explicit shift is
supplied and a time is available, the code computes
`expected = compute_shift(rec_time)` (whose failure propagates) and then
silently ignores any discrepancy (`if expected != rec_shift: pass`), before
checking the shift is "A" or "B". -/
def create_production (now : Clock) (record : ProductionInput) :
    Except ApiError ProductionRecord :=
  let rec_date : Date := record.date.getD now.nowDate
  let rec_time : Option Time := some (record.time.getD now.nowTime)
  let shiftRes : Except ApiError String :=
    match record.shift with
    | none =>
      match rec_time with
      | none => Except.error ApiError.timeRequired
      | some t => compute_shift t
    | some s =>
      let precheck : Except ApiError Unit :=
        match rec_time with
        | none => Except.ok ()
        | some t =>
          match compute_shift t with
          | Except.ok _expected => Except.ok ()
          | Except.error e => Except.error e
      match precheck with
      | Except.error e => Except.error e
      | Except.ok _ =>
        if s = "A" ∨ s = "B" then Except.ok s
        else Except.error ApiError.invalidShift
  match shiftRes with
  | Except.error e => Except.error e
  | Except.ok rec_shift =>
    Except.ok
      { date := rec_date
        time := rec_time
        shift := rec_shift
        line := record.line
        product := record.product
        operator := record.operator
        count := record.count
        defects := defectsOrZero record.defects
        notes := record.notes }

/-- The POST /api/production handler: pydantic validation of the payload,
then the normalization body. -/
def create_production_endpoint (now : Clock) (r : ProductionInput) :
    Except ApiError ProductionRecord :=
  match validateInput r with
  | Except.error e => Except.error e
  | Except.ok r2 => create_production now r2

/-- Unfolds `compute_shift` to plain arithmetic on seconds. -/
theorem compute_shift_eq (t : Time) :
    compute_shift t =
      if 25200 ≤ t.val ∧ t.val < 55800 then Except.ok "A"
      else if 55800 ≤ t.val ∧ t.val ≤ 86399 then Except.ok "B"
      else Except.error ApiError.invalidTimeWindow := by
  simp only [compute_shift, FIRST_SHIFT_START, FIRST_SHIFT_END,
    SECOND_SHIFT_START, SECOND_SHIFT_END, Fin.le_def, Fin.lt_def]

/-- C1: shift classification is exactly the fixed two-window rule: every
`t` with 07:00:00 ≤ t < 15:30:00 classifies as "A", every `t` with
15:30:00 ≤ t ≤ 23:59:59 classifies as "B", every `t` < 07:00:00 fails with
invalidTimeWindow; in particular 07:00:00 → A, 15:29:59 → A, 15:30:00 → B,
23:59:59 → B, 06:59:59 → error. -/
theorem compute_shift_two_window_rule (t : Time) :
    (25200 ≤ t.val → t.val < 55800 → compute_shift t = Except.ok "A") ∧
    (55800 ≤ t.val → compute_shift t = Except.ok "B") ∧
    (t.val < 25200 → compute_shift t = Except.error ApiError.invalidTimeWindow) ∧
    compute_shift ⟨25200, by norm_num⟩ = Except.ok "A" ∧
    compute_shift ⟨55799, by norm_num⟩ = Except.ok "A" ∧
    compute_shift ⟨55800, by norm_num⟩ = Except.ok "B" ∧
    compute_shift ⟨86399, by norm_num⟩ = Except.ok "B" ∧
    compute_shift ⟨25199, by norm_num⟩ = Except.error ApiError.invalidTimeWindow := by
  have hlt : t.val < 86400 := t.isLt
  refine ⟨?_, ?_, ?_, by rfl, by rfl, by rfl, by rfl, by rfl⟩
  · intro h1 h2
    rw [compute_shift_eq]
    simp [h1, h2]
  · intro h1
    rw [compute_shift_eq]
    have h2 : ¬ (25200 ≤ t.val ∧ t.val < 55800) := by omega
    have h3 : t.val ≤ 86399 := by omega
    simp [h1, h2, h3]
  · intro h1
    rw [compute_shift_eq]
    have h2 : ¬ (25200 ≤ t.val ∧ t.val < 55800) := by omega
    have h3 : ¬ (55800 ≤ t.val ∧ t.val ≤ 86399) := by omega
    simp [h2, h3]

/-- Witness for C1: instantiates the window rule at concrete times
08:00:00 (28800 s), 16:00:00 (57600 s) and 06:00:00 (21600 s). -/
theorem compute_shift_two_window_rule_witness :
    compute_shift ⟨28800, by norm_num⟩ = Except.ok "A" ∧
    compute_shift ⟨57600, by norm_num⟩ = Except.ok "B" ∧
    compute_shift ⟨21600, by norm_num⟩ = Except.error ApiError.invalidTimeWindow :=
  ⟨(compute_shift_two_window_rule ⟨28800, by norm_num⟩).1 (by norm_num) (by norm_num),
   (compute_shift_two_window_rule ⟨57600, by norm_num⟩).2.1 (by norm_num),
   (compute_shift_two_window_rule ⟨21600, by norm_num⟩).2.2.1 (by norm_num)⟩

/-- A concrete clock reading used for witnesses: 2024-01-01, 12:00:00. -/
def clock0 : Clock := ⟨⟨2024, 1, 1⟩, ⟨43200, by norm_num⟩⟩

/-- `validateInput` passes exactly when `count` is non-negative and any
supplied `defects` is non-negative. -/
theorem validateInput_ok (r : ProductionInput) (hc : 0 ≤ r.count)
    (hd : ∀ v, r.defects = some v → 0 ≤ v) :
    validateInput r = Except.ok r := by
  unfold validateInput
  have h1 : ¬ r.count < 0 := by omega
  rw [if_neg h1]
  cases hdef : r.defects with
  | none => simp [hdef]
  | some v =>
    have := hd v hdef
    simp [hdef]
    omega

/-- Normal form of `create_production` when an explicit shift is supplied:
the expected shift is computed from the (supplied or substituted) time, its
failure propagates, and then the shift string is checked against {A, B}. -/
theorem create_production_explicit (now : Clock) (r : ProductionInput)
    (s : String) (hs : r.shift = some s) :
    create_production now r =
      match compute_shift (r.time.getD now.nowTime) with
      | Except.error e => Except.error e
      | Except.ok _v =>
        if s = "A" ∨ s = "B" then
          Except.ok
            { date := r.date.getD now.nowDate
              time := some (r.time.getD now.nowTime)
              shift := s
              line := r.line
              product := r.product
              operator := r.operator
              count := r.count
              defects := defectsOrZero r.defects
              notes := r.notes }
        else Except.error ApiError.invalidShift := by
  unfold create_production
  rw [hs]
  cases h : compute_shift (r.time.getD now.nowTime) with
  | error e => simp [h]
  | ok v =>
    by_cases hc : s = "A" ∨ s = "B" <;> simp [h, hc]

/-- Normal form of `create_production` when no shift is supplied: the shift
is classified from the (supplied or substituted) time. -/
theorem create_production_implicit (now : Clock) (r : ProductionInput)
    (hs : r.shift = none) :
    create_production now r =
      match compute_shift (r.time.getD now.nowTime) with
      | Except.error e => Except.error e
      | Except.ok v =>
        Except.ok
          { date := r.date.getD now.nowDate
            time := some (r.time.getD now.nowTime)
            shift := v
            line := r.line
            product := r.product
            operator := r.operator
            count := r.count
            defects := defectsOrZero r.defects
            notes := r.notes } := by
  unfold create_production
  rw [hs]

/-- Classification succeeds (with "A" or "B") on every time at or after
07:00:00. -/
theorem compute_shift_ok_of_ge (t : Time) (h : 25200 ≤ t.val) :
    compute_shift t = Except.ok "A" ∨ compute_shift t = Except.ok "B" := by
  rcases Nat.lt_or_ge t.val 55800 with h2 | h2
  · exact Or.inl ((compute_shift_two_window_rule t).1 h h2)
  · exact Or.inr ((compute_shift_two_window_rule t).2.1 h2)

/-- The input of the C2 counterexample: explicit shift "A" together with an
explicit time of 06:00:00 (before the first window). -/
def inputC2 : ProductionInput :=
  { date := none
    time := some ⟨21600, by norm_num⟩
    shift := some "A"
    line := none
    product := none
    operator := none
    count := 1
    defects := some 0
    notes := none }

/-- C2 counterexample: an input with explicit shift "A" (so in {A, B}) and
time 06:00:00 does fail with invalidTimeWindow, because `create_production`
computes the expected shift from the time before ignoring the discrepancy. -/
theorem explicit_shift_time_window_counterexample :
    create_production_endpoint clock0 inputC2 =
      Except.error ApiError.invalidTimeWindow := by
  rfl

/-- C2 (amended): with an explicit shift in {A, B}, normalization never
fails with invalidTimeWindow provided the supplied-or-substituted time lies
inside one of the two windows (t ≥ 07:00:00): it succeeds outright. When the
time is before 07:00:00, the expected-shift computation fails first even
though the explicit shift would win, so the unconditional claim fails. -/
theorem explicit_shift_no_window_error (now : Clock) (r : ProductionInput)
    (s : String) (hs : r.shift = some s) (hAB : s = "A" ∨ s = "B")
    (ht : 25200 ≤ (r.time.getD now.nowTime).val) :
    create_production now r =
      Except.ok
        { date := r.date.getD now.nowDate
          time := some (r.time.getD now.nowTime)
          shift := s
          line := r.line
          product := r.product
          operator := r.operator
          count := r.count
          defects := defectsOrZero r.defects
          notes := r.notes } := by
  rw [create_production_explicit now r s hs]
  rcases compute_shift_ok_of_ge _ ht with h | h <;> rw [h] <;> simp [hAB]

/-- Witness for the amended C2: explicit shift "B" with time 08:20:00
(30000 s) normalizes successfully. -/
theorem explicit_shift_no_window_error_witness :
    create_production clock0
      { date := none
        time := some ⟨30000, by norm_num⟩
        shift := some "B"
        line := none
        product := none
        operator := none
        count := 2
        defects := none
        notes := none } =
      Except.ok
        { date := clock0.nowDate
          time := some ⟨30000, by norm_num⟩
          shift := "B"
          line := none
          product := none
          operator := none
          count := 2
          defects := 0
          notes := none } :=
  explicit_shift_no_window_error clock0 _ "B" rfl (Or.inr rfl) (by norm_num)

/-- The input of the C3 counterexample: explicit shift "C" (not in {A, B})
together with an explicit time of 06:30:00 (before the first window). -/
def inputC3 : ProductionInput :=
  { date := none
    time := some ⟨23400, by norm_num⟩
    shift := some "C"
    line := none
    product := none
    operator := none
    count := 1
    defects := none
    notes := none }

/-- C3 counterexample: an input with explicit shift "C" and time 06:30:00
fails with invalidTimeWindow, not invalidShift: the expected-shift
computation runs (and fails) before the shift string is checked. -/
theorem invalid_shift_order_counterexample :
    create_production_endpoint clock0 inputC3 =
        Except.error ApiError.invalidTimeWindow ∧
    create_production_endpoint clock0 inputC3 ≠
        Except.error ApiError.invalidShift := by
  constructor
  · rfl
  · intro h
    rw [show create_production_endpoint clock0 inputC3 =
          Except.error ApiError.invalidTimeWindow from rfl] at h
    simp at h

/-- C3 (amended): an explicit shift outside {A, B} is rejected with
invalidShift whenever the supplied-or-substituted time lies inside one of
the windows (t ≥ 07:00:00); for earlier times the prior expected-shift
computation fails first, with invalidTimeWindow instead. -/
theorem invalid_shift_rejected (now : Clock) (r : ProductionInput)
    (s : String) (hs : r.shift = some s) (hA : s ≠ "A") (hB : s ≠ "B")
    (ht : 25200 ≤ (r.time.getD now.nowTime).val) :
    create_production now r = Except.error ApiError.invalidShift := by
  rw [create_production_explicit now r s hs]
  rcases compute_shift_ok_of_ge _ ht with h | h <;> rw [h] <;> simp [hA, hB]

/-- Witness for the amended C3: explicit shift "X" with time 08:20:00
(30000 s) is rejected with invalidShift. -/
theorem invalid_shift_rejected_witness :
    create_production clock0
      { date := none
        time := some ⟨30000, by norm_num⟩
        shift := some "X"
        line := none
        product := none
        operator := none
        count := 4
        defects := none
        notes := none } = Except.error ApiError.invalidShift :=
  invalid_shift_rejected clock0 _ "X" rfl (by decide) (by decide) (by norm_num)

/-- The input of the C4 counterexample: a fully-specified record (shift "A"
in {A, B}, non-negative count and defects) whose time 06:00:00 lies outside
both windows. -/
def inputC4 : ProductionInput :=
  { date := some ⟨2024, 1, 2⟩
    time := some ⟨21600, by norm_num⟩
    shift := some "A"
    line := some "L1"
    product := some "P1"
    operator := some "Op1"
    count := 3
    defects := some 1
    notes := some "n" }

/-- C4 counterexample: normalizing this fully-specified valid record does
not yield the record back: it fails with invalidTimeWindow, because the
expected shift is recomputed from the stored time 06:00:00. -/
theorem normalize_idempotent_counterexample :
    create_production_endpoint clock0 inputC4 =
      Except.error ApiError.invalidTimeWindow := by
  rfl

/-- C4 (amended): normalization is idempotent on complete valid records
whose time lies inside one of the shift windows (t ≥ 07:00:00): for every
such record (date, time, shift in {A, B}, non-negative count and defects all
present) the endpoint returns exactly that record, whatever the current
wall-clock reading. -/
theorem normalize_idempotent_in_window (now : Clock) (d : Date) (t : Time)
    (s : String) (ln pr op nt : Option String) (c df : Int)
    (hAB : s = "A" ∨ s = "B") (hc : 0 ≤ c) (hdf : 0 ≤ df)
    (ht : 25200 ≤ t.val) :
    create_production_endpoint now
        ⟨some d, some t, some s, ln, pr, op, c, some df, nt⟩ =
      Except.ok ⟨d, some t, s, ln, pr, op, c, df, nt⟩ := by
  unfold create_production_endpoint
  rw [validateInput_ok _ hc (by intro v hv; cases hv; exact hdf)]
  show create_production now _ = _
  rw [explicit_shift_no_window_error now _ s rfl hAB (by simpa using ht)]
  have hd : defectsOrZero (some df) = df := by
    unfold defectsOrZero
    by_cases h0 : df = 0 <;> simp [h0]
  simp [hd]

/-- Witness for the amended C4: the complete record (2024-01-03, 16:40:00,
shift "B", count 7, defects 2) normalizes to itself. -/
theorem normalize_idempotent_in_window_witness :
    create_production_endpoint clock0
        ⟨some ⟨2024, 1, 3⟩, some ⟨60000, by norm_num⟩, some "B", some "L2",
          some "P2", some "Op2", 7, some 2, some "m"⟩ =
      Except.ok ⟨⟨2024, 1, 3⟩, some ⟨60000, by norm_num⟩, "B", some "L2",
          some "P2", some "Op2", 7, 2, some "m"⟩ :=
  normalize_idempotent_in_window clock0 ⟨2024, 1, 3⟩ ⟨60000, by norm_num⟩ "B"
    (some "L2") (some "P2") (some "Op2") (some "m") 7 2 (Or.inr rfl)
    (by norm_num) (by norm_num) (by norm_num)

/-- C5: when an explicit shift in {A, B} conflicts with the shift derived
from a time lying inside one of the windows, the record is accepted with the
explicit shift and no error is raised. -/
theorem explicit_shift_wins (now : Clock) (dt : Option Date) (t : Time)
    (s e : String) (ln pr op nt : Option String) (c : Int) (df : Option Int)
    (hAB : s = "A" ∨ s = "B") (he : compute_shift t = Except.ok e)
    (_hne : e ≠ s) (hc : 0 ≤ c) (hdf : ∀ v, df = some v → 0 ≤ v) :
    create_production_endpoint now ⟨dt, some t, some s, ln, pr, op, c, df, nt⟩ =
      Except.ok ⟨dt.getD now.nowDate, some t, s, ln, pr, op, c,
        defectsOrZero df, nt⟩ := by
  unfold create_production_endpoint
  rw [validateInput_ok _ hc hdf]
  show create_production now _ = _
  rw [create_production_explicit now _ s rfl]
  simp only [Option.getD_some]
  rw [he]
  simp [hAB]

/-- Witness for C5 (the spec's example): input {count 5, time 16:00:00,
shift "A"} — the time classifies as "B", but the record is accepted with
shift "A". -/
theorem explicit_shift_wins_witness :
    create_production_endpoint clock0
        ⟨none, some ⟨57600, by norm_num⟩, some "A", none, none, none, 5,
          none, none⟩ =
      Except.ok ⟨clock0.nowDate, some ⟨57600, by norm_num⟩, "A", none, none,
        none, 5, 0, none⟩ :=
  explicit_shift_wins clock0 none ⟨57600, by norm_num⟩ "A" "B" none none none
    none 5 none (Or.inl rfl) rfl (by decide) (by norm_num)
    (by intro v hv; cases hv)

/-- C6: a negative `count` is rejected with invalidCount, and a negative
`defects` (with a valid count) is rejected with invalidDefects, by the
pydantic field validation, before normalization runs: no record is
produced. -/
theorem negative_values_rejected :
    (∀ (now : Clock) (r : ProductionInput), r.count < 0 →
        create_production_endpoint now r =
          Except.error ApiError.invalidCount) ∧
    (∀ (now : Clock) (r : ProductionInput) (d : Int), 0 ≤ r.count →
        r.defects = some d → d < 0 →
        create_production_endpoint now r =
          Except.error ApiError.invalidDefects) := by
  constructor
  · intro now r hc
    unfold create_production_endpoint validateInput
    rw [if_pos hc]
  · intro now r d hc hd hneg
    unfold create_production_endpoint validateInput
    rw [if_neg (by omega), hd]
    simp [hneg]

/-- Witness for C6: count −1 is rejected with invalidCount; count 0 with
defects −2 is rejected with invalidDefects. -/
theorem negative_values_rejected_witness :
    create_production_endpoint clock0
        ⟨none, none, none, none, none, none, -1, none, none⟩ =
      Except.error ApiError.invalidCount ∧
    create_production_endpoint clock0
        ⟨none, none, none, none, none, none, 0, some (-2), none⟩ =
      Except.error ApiError.invalidDefects :=
  ⟨negative_values_rejected.1 clock0 _ (by norm_num),
   negative_values_rejected.2 clock0 _ (-2) (by norm_num) rfl (by norm_num)⟩

/-- Inversion of a successful `validateInput`: the input is returned
unchanged and its count and defects are non-negative. -/
theorem validateInput_ok_inv (r r2 : ProductionInput)
    (h : validateInput r = Except.ok r2) :
    r2 = r ∧ 0 ≤ r.count ∧ ∀ v, r.defects = some v → 0 ≤ v := by
  unfold validateInput at h
  split_ifs at h with h1 h2
  · injection h with h3
    refine ⟨h3.symm, by omega, ?_⟩
    intro v hv
    rw [hv] at h2
    simp at h2
    omega

/-- A successful classification returns "A" or "B" and nothing else. -/
theorem compute_shift_ok_values (t : Time) (v : String)
    (h : compute_shift t = Except.ok v) : v = "A" ∨ v = "B" := by
  rw [compute_shift_eq] at h
  split_ifs at h
  · injection h with h3
    exact Or.inl h3.symm
  · injection h with h3
    exact Or.inr h3.symm

/-- `record.defects or 0` is non-negative whenever any supplied defects
value is. -/
theorem defectsOrZero_nonneg (df : Option Int)
    (h : ∀ v, df = some v → 0 ≤ v) : 0 ≤ defectsOrZero df := by
  cases df with
  | none => simp [defectsOrZero]
  | some v =>
    have := h v rfl
    unfold defectsOrZero
    by_cases hv : v = 0 <;> simp [hv]
    omega

/-- C9: every record produced by the endpoint satisfies the canonical
invariants: shift in {A, B}, count ≥ 0 and defects ≥ 0. -/
theorem normalized_record_invariants (now : Clock) (r : ProductionInput)
    (rec : ProductionRecord)
    (h : create_production_endpoint now r = Except.ok rec) :
    (rec.shift = "A" ∨ rec.shift = "B") ∧ 0 ≤ rec.count ∧ 0 ≤ rec.defects := by
  unfold create_production_endpoint at h
  cases hv : validateInput r with
  | error e => rw [hv] at h; simp at h
  | ok r2 =>
    rw [hv] at h
    obtain ⟨hr2, hc, hd⟩ := validateInput_ok_inv r r2 hv
    subst hr2
    simp only at h
    cases hs : r2.shift with
    | none =>
      rw [create_production_implicit now r2 hs] at h
      cases hcs : compute_shift (r2.time.getD now.nowTime) with
      | error e => rw [hcs] at h; simp at h
      | ok v =>
        rw [hcs] at h
        injection h with h3
        subst h3
        exact ⟨compute_shift_ok_values _ _ hcs, hc, defectsOrZero_nonneg _ hd⟩
    | some s =>
      rw [create_production_explicit now r2 s hs] at h
      cases hcs : compute_shift (r2.time.getD now.nowTime) with
      | error e => rw [hcs] at h; simp at h
      | ok v =>
        rw [hcs] at h
        by_cases hAB : s = "A" ∨ s = "B"
        · rw [if_pos hAB] at h
          injection h with h3
          subst h3
          exact ⟨hAB, hc, defectsOrZero_nonneg _ hd⟩
        · rw [if_neg hAB] at h
          simp at h

/-- Witness for C9: the stored record for input {count 10, time 08:00:00}
satisfies the invariants. -/
theorem normalized_record_invariants_witness :
    ("A" = "A" ∨ "A" = "B") ∧ (0 : Int) ≤ 10 ∧ (0 : Int) ≤ 0 := by
  have h10 : (28800 : Nat) < 86400 := by norm_num
  have h := normalized_record_invariants clock0
    ⟨none, some ⟨28800, h10⟩, none, none, none, none, 10, none, none⟩
    ⟨clock0.nowDate, some ⟨28800, h10⟩, "A", none, none, none, 10, 0, none⟩
    (by rfl)
  exact h

/-- C10: normalization is deterministic on complete inputs: when date, time
and shift are all supplied, the endpoint result does not depend on the
current wall-clock reading. -/
theorem normalization_deterministic (now1 now2 : Clock)
    (r : ProductionInput) (hd : r.date.isSome = true)
    (ht : r.time.isSome = true) (hs : r.shift.isSome = true) :
    create_production_endpoint now1 r = create_production_endpoint now2 r := by
  obtain ⟨d, hd⟩ := Option.isSome_iff_exists.mp hd
  obtain ⟨t, ht⟩ := Option.isSome_iff_exists.mp ht
  obtain ⟨s, hs⟩ := Option.isSome_iff_exists.mp hs
  unfold create_production_endpoint
  cases hv : validateInput r with
  | error e => rfl
  | ok r2 =>
    obtain ⟨hr2, _, _⟩ := validateInput_ok_inv r r2 hv
    subst hr2
    simp only
    rw [create_production_explicit now1 r2 s hs,
      create_production_explicit now2 r2 s hs]
    simp [hd, ht]

/-- Witness for C10: a complete input gives the same result under two
different clock readings. -/
theorem normalization_deterministic_witness :
    create_production_endpoint clock0
        ⟨some ⟨2023, 5, 6⟩, some ⟨30000, by norm_num⟩, some "A", none, none,
          none, 1, none, none⟩ =
      create_production_endpoint ⟨⟨2025, 12, 31⟩, ⟨20000, by norm_num⟩⟩
        ⟨some ⟨2023, 5, 6⟩, some ⟨30000, by norm_num⟩, some "A", none, none,
          none, 1, none, none⟩ :=
  normalization_deterministic clock0 ⟨⟨2025, 12, 31⟩, ⟨20000, by norm_num⟩⟩
    _ rfl rfl rfl

/-- Gregorian leap-year rule, as used by Python `datetime.date`. -/
def isLeap (y : Nat) : Bool := (y % 4 == 0 && y % 100 != 0) || (y % 400 == 0)

/-- Number of days of month `m` in year `y` (Python `datetime.date`
validation). -/
def daysInMonth (y m : Nat) : Nat :=
  if m = 2 then (if isLeap y then 29 else 28)
  else if m = 4 ∨ m = 6 ∨ m = 9 ∨ m = 11 then 30
  else 31

/-- Splits a character list at every '-' (the literal separators of the
"%Y-%m-%d" format). -/
def splitDash : List Char → List (List Char)
  | [] => [[]]
  | c :: cs =>
    let r := splitDash cs
    if c = '-' then [] :: r
    else
      match r with
      | [] => [[c]]
      | g :: gs => (c :: g) :: gs

/-- Decimal value of a digit string. -/
def digitsVal (cs : List Char) : Nat :=
  cs.foldl (fun a c => a * 10 + (c.toNat - 48)) 0

/-- The character list is non-empty and made of decimal digits only. -/
def allDigits (cs : List Char) : Bool := !cs.isEmpty && cs.all (·.isDigit)

/-- Embedding of `datetime.strptime(date_str, "%Y-%m-%d").date()`: CPython
matches `%Y` against exactly four digits, `%m` and `%d` against one or two
digits, with literal "-" separators and nothing left over; the resulting
numbers must form a real calendar date with year ≥ 1 (`datetime.MINYEAR`),
month 1..12 and day within the month. Any failure raises `ValueError`,
modelled as `none`. -/
def parse_date (s : String) : Option Date :=
  match splitDash s.data with
  | [ys, ms, ds] =>
    if allDigits ys = true ∧ ys.length = 4 ∧ allDigits ms = true ∧
        ms.length ≤ 2 ∧ allDigits ds = true ∧ ds.length ≤ 2 then
      let y := digitsVal ys
      let m := digitsVal ms
      let d := digitsVal ds
      if 1 ≤ y ∧ 1 ≤ m ∧ m ≤ 12 ∧ 1 ≤ d ∧ d ≤ daysInMonth y m then
        some ⟨y, m, d⟩
      else none
    else none
  | _ => none

/-- The exact-match filter built by GET /api/production from its query
parameters. -/
structure FilterQ where
  fdate : Option Date
  fshift : Option String
deriving DecidableEq, Repr

/-- The `if date_str:` block of `list_production` (src/main.py): Python
truthiness, so `None` and the empty string both skip the constraint;
otherwise the string must parse as YYYY-MM-DD. -/
def dateFilterStep (date_str : Option String) :
    Except ApiError (Option Date) :=
  match date_str with
  | none => Except.ok none
  | some s =>
    if s = "" then Except.ok none
    else
      match parse_date s with
      | none => Except.error ApiError.invalidDateFormat
      | some d => Except.ok (some d)

/-- The `if shift:` block of `list_production` (src/main.py): Python
truthiness, so `None` and the empty string both skip the constraint;
otherwise the string must be "A" or "B". -/
def shiftFilterStep (shift : Option String) :
    Except ApiError (Option String) :=
  match shift with
  | none => Except.ok none
  | some s =>
    if s = "" then Except.ok none
    else
      if s = "A" ∨ s = "B" then Except.ok (some s)
      else Except.error ApiError.invalidShift

/-- Embedding of the filter-building prefix of `list_production`
(src/main.py): the date parameter is handled first, then the shift
parameter. -/
def list_production_filter (date_str : Option String)
    (shift : Option String) : Except ApiError FilterQ :=
  match dateFilterStep date_str with
  | Except.error e => Except.error e
  | Except.ok fd =>
    match shiftFilterStep shift with
    | Except.error e => Except.error e
    | Except.ok fs => Except.ok ⟨fd, fs⟩

/-- Modelled from the spec: the document store collaborator
(`get_documents` of `database.py`, which is not part of src/) performs
exact-match filtering — a stored record matches the filter when every field
present in the filter equals the corresponding stored field, and an absent
field is no constraint. -/
def matchesFilter (f : FilterQ) (rec : ProductionRecord) : Bool :=
  (match f.fdate with
   | none => true
   | some d => rec.date == d) &&
  (match f.fshift with
   | none => true
   | some s => rec.shift == s)

/-- A string that parses as a date is not empty. -/
theorem parse_date_ne_empty (s : String) (d : Date)
    (h : parse_date s = some d) : s ≠ "" := by
  intro he
  subst he
  have h0 : parse_date "" = none := by decide
  rw [h0] at h
  exact Option.noConfusion h

/-- C7 counterexample: a supplied empty-string date parameter does not
parse as YYYY-MM-DD, yet the filter builder does not fail with
invalidDateFormat — Python truthiness treats "" like an absent parameter;
likewise a supplied empty-string shift (not in {A, B}) does not fail with
invalidShift. -/
theorem filter_empty_string_counterexample :
    parse_date "" = none ∧
    list_production_filter (some "") none = Except.ok ⟨none, none⟩ ∧
    list_production_filter none (some "") = Except.ok ⟨none, none⟩ :=
  ⟨rfl, rfl, rfl⟩

/-- C7 (amended): for every supplied non-empty date string that does not
parse as YYYY-MM-DD the builder fails with invalidDateFormat (whatever the
shift parameter); a supplied non-empty shift outside {A, B} fails with
invalidShift (whether or not a valid date is supplied); absent parameters
contribute no constraint (and a supplied empty string is treated like an
absent parameter); when both are supplied and valid the built filter
matches a record exactly when both fields are equal. -/
theorem filter_builder_rule :
    (∀ (ds : String) (sh : Option String), ds ≠ "" → parse_date ds = none →
        list_production_filter (some ds) sh =
          Except.error ApiError.invalidDateFormat) ∧
    (∀ sh : String, sh ≠ "" → sh ≠ "A" → sh ≠ "B" →
        list_production_filter none (some sh) =
          Except.error ApiError.invalidShift) ∧
    (∀ (ds : String) (d : Date) (sh : String), parse_date ds = some d →
        sh ≠ "" → sh ≠ "A" → sh ≠ "B" →
        list_production_filter (some ds) (some sh) =
          Except.error ApiError.invalidShift) ∧
    list_production_filter none none = Except.ok ⟨none, none⟩ ∧
    (∀ (ds : String) (d : Date) (sh : String), parse_date ds = some d →
        (sh = "A" ∨ sh = "B") →
        list_production_filter (some ds) (some sh) =
          Except.ok ⟨some d, some sh⟩ ∧
        ∀ rec : ProductionRecord,
          matchesFilter ⟨some d, some sh⟩ rec =
            (rec.date == d && rec.shift == sh)) := by
  refine ⟨?_, ?_, ?_, rfl, ?_⟩
  · intro ds sh hne hp
    have h1 : dateFilterStep (some ds) = Except.error ApiError.invalidDateFormat := by
      simp only [dateFilterStep]
      rw [if_neg hne, hp]
    simp only [list_production_filter, h1]
  · intro sh hne hA hB
    have h2 : shiftFilterStep (some sh) = Except.error ApiError.invalidShift := by
      simp only [shiftFilterStep]
      rw [if_neg hne, if_neg (by simp [hA, hB])]
    simp only [list_production_filter, h2, dateFilterStep]
  · intro ds d sh hp hne hA hB
    have h1 : dateFilterStep (some ds) = Except.ok (some d) := by
      simp only [dateFilterStep]
      rw [if_neg (parse_date_ne_empty ds d hp), hp]
    have h2 : shiftFilterStep (some sh) = Except.error ApiError.invalidShift := by
      simp only [shiftFilterStep]
      rw [if_neg hne, if_neg (by simp [hA, hB])]
    simp only [list_production_filter, h1, h2]
  · intro ds d sh hp hAB
    refine ⟨?_, ?_⟩
    · have h1 : dateFilterStep (some ds) = Except.ok (some d) := by
        simp only [dateFilterStep]
        rw [if_neg (parse_date_ne_empty ds d hp), hp]
      have hne2 : sh ≠ "" := by rcases hAB with h | h <;> subst h <;> decide
      have h2 : shiftFilterStep (some sh) = Except.ok (some sh) := by
        simp only [shiftFilterStep]
        rw [if_neg hne2, if_pos hAB]
      simp only [list_production_filter, h1, h2]
    · intro rec
      rfl

/-- Witness for the amended C7: "2024-13-01" (month 13) fails with
invalidDateFormat; shift "C" fails with invalidShift; the valid pair
(2024-01-01, B) builds the two-field filter, which accepts a matching
record and rejects one with shift "A". -/
theorem filter_builder_rule_witness :
    list_production_filter (some "2024-13-01") none =
        Except.error ApiError.invalidDateFormat ∧
    list_production_filter none (some "C") =
        Except.error ApiError.invalidShift ∧
    list_production_filter (some "2024-01-01") (some "B") =
        Except.ok ⟨some ⟨2024, 1, 1⟩, some "B"⟩ ∧
    matchesFilter ⟨some ⟨2024, 1, 1⟩, some "B"⟩
        ⟨⟨2024, 1, 1⟩, none, "B", none, none, none, 1, 0, none⟩ = true ∧
    matchesFilter ⟨some ⟨2024, 1, 1⟩, some "B"⟩
        ⟨⟨2024, 1, 1⟩, none, "A", none, none, none, 1, 0, none⟩ = false := by
  refine ⟨filter_builder_rule.1 "2024-13-01" none (by decide) (by rfl),
    filter_builder_rule.2.1 "C" (by decide) (by decide) (by decide),
    (filter_builder_rule.2.2.2.2 "2024-01-01" ⟨2024, 1, 1⟩ "B" (by rfl)
      (Or.inr rfl)).1, ?_, ?_⟩
  · rw [(filter_builder_rule.2.2.2.2 "2024-01-01" ⟨2024, 1, 1⟩ "B" (by rfl)
      (Or.inr rfl)).2]
    rfl
  · rw [(filter_builder_rule.2.2.2.2 "2024-01-01" ⟨2024, 1, 1⟩ "B" (by rfl)
      (Or.inr rfl)).2]
    rfl

/-- A spreadsheet cell value: a string, an integer, or Python `None` (an
absent optional field is stored as `None` and appended as such). -/
inductive Cell where
  | s (v : String)
  | i (v : Int)
  | nil
deriving DecidableEq, Repr

/-- Two-digit zero-padded decimal. -/
def pad2 (n : Nat) : String := if n < 10 then "0" ++ toString n else toString n

/-- Four-digit zero-padded decimal. -/
def pad4 (n : Nat) : String :=
  if n < 10 then "000" ++ toString n
  else if n < 100 then "00" ++ toString n
  else if n < 1000 then "0" ++ toString n
  else toString n

/-- `date.isoformat()`: "YYYY-MM-DD". -/
def dateIso (d : Date) : String :=
  pad4 d.year ++ "-" ++ pad2 d.month ++ "-" ++ pad2 d.day

/-- `time.strftime("%H:%M")`. -/
def timeHM (t : Time) : String :=
  pad2 (t.val / 3600) ++ ":" ++ pad2 (t.val % 3600 / 60)

/-- The Time column: a stored time is formatted "%H:%M"; a stored `None`
becomes `r_time or ""`, i.e. the empty string. -/
def timeCellStr : Option Time → String
  | none => ""
  | some t => timeHM t

/-- An optional free-text field appended as a cell: the stored value, which
is Python `None` when absent (`r.get(key, "")` finds the key, whose value is
`None`). -/
def optCell : Option String → Cell
  | none => Cell.nil
  | some v => Cell.s v

/-- Python `x or 0` on an int: 0 is falsy, everything else is itself. -/
def intOrZero (c : Int) : Int := if c = 0 then 0 else c

/-- The header row of the export sheet (src/main.py `headers`). -/
def headerRow : List Cell :=
  [Cell.s "Date", Cell.s "Time", Cell.s "Shift", Cell.s "Line",
   Cell.s "Product", Cell.s "Operator", Cell.s "Good Count",
   Cell.s "Defects", Cell.s "Notes"]

/-- The data row appended for one stored record by `export_production`
(src/main.py). -/
def exportRow (r : ProductionRecord) : List Cell :=
  [Cell.s (dateIso r.date),
   Cell.s (timeCellStr r.time),
   Cell.s r.shift,
   optCell r.line,
   optCell r.product,
   optCell r.operator,
   Cell.i (intOrZero r.count),
   Cell.i (intOrZero r.defects),
   optCell r.notes]

/-- The trailing totals row (src/main.py):
`["", "", "", "", "", "Totals", total_good, total_def, ""]`. -/
def totalsRow (tg td : Int) : List Cell :=
  [Cell.s "", Cell.s "", Cell.s "", Cell.s "", Cell.s "", Cell.s "Totals",
   Cell.i tg, Cell.i td, Cell.s ""]

/-- The `for r in records:` loop of `export_production`: appends one row per
record and accumulates `total_good` and `total_def`. -/
def exportLoop : List ProductionRecord → Int → Int →
    List (List Cell) × Int × Int
  | [], tg, td => ([], tg, td)
  | r :: rs, tg, td =>
    let rest := exportLoop rs (tg + intOrZero r.count) (td + intOrZero r.defects)
    (exportRow r :: rest.1, rest.2)

/-- Embedding of the sheet built by `export_production` (src/main.py): the
header row, the loop over the matching records, and the appended totals
row. (Column widths are presentation only and not modelled.) -/
def export_production (records : List ProductionRecord) : List (List Cell) :=
  let res := exportLoop records 0 0
  (headerRow :: res.1) ++ [totalsRow res.2.1 res.2.2]

/-- The export loop maps `exportRow` over the records and adds the column
sums to the running totals. -/
theorem exportLoop_spec (records : List ProductionRecord) (tg td : Int) :
    exportLoop records tg td =
      (records.map exportRow,
       tg + (records.map (fun r => intOrZero r.count)).sum,
       td + (records.map (fun r => intOrZero r.defects)).sum) := by
  induction records generalizing tg td with
  | nil => simp [exportLoop]
  | cons r rs ih =>
    simp [exportLoop, ih]
    constructor <;> ring

/-- C8: the export table is the header row, one row per matching record (in
order), and a trailing totals row whose Good Count and Defects cells are the
sums of those columns; in particular its first row is the header, its
length is the record count plus two, and the export of zero records is the
header row plus a totals row of 0, 0. -/
theorem export_table_structure (records : List ProductionRecord) :
    export_production records =
      headerRow :: (records.map exportRow ++
        [totalsRow (records.map (fun r => intOrZero r.count)).sum
          (records.map (fun r => intOrZero r.defects)).sum]) ∧
    (export_production records).head? = some headerRow ∧
    (export_production records).length = records.length + 2 ∧
    export_production [] = [headerRow, totalsRow 0 0] := by
  have h : export_production records =
      headerRow :: (records.map exportRow ++
        [totalsRow (records.map (fun r => intOrZero r.count)).sum
          (records.map (fun r => intOrZero r.defects)).sum]) := by
    unfold export_production
    rw [exportLoop_spec]
    simp
  refine ⟨h, by rw [h]; rfl, by rw [h]; simp, by rfl⟩

end PTrack
